import Mathlib

/-!
# Verification of the HaruTrader strategy core

A shallow embedding, over `ℚ`-valued prices, of the strategy signal /
backtest engine of the HaruTrader repository:

* `src/app/strategy/risk_management.py` — position sizing and risk validation;
* `src/app/strategy/indicators.py` — `average_daily_range` and `swingline`;
* `src/app/strategy/strategies/mean_reversion_adr.py` and
  `mean_reversion_swingline.py` — signal generation and the bar-by-bar
  backtest simulator;
* `src/app/strategy/screener.py` — condition screening across symbols.

Python floats are modelled as rationals, pandas `NaN`-able columns as
`Option ℚ` lists, raised exceptions as `Except` values, and Python's
`round` as round-half-to-even on `ℚ`.
-/

namespace HaruTrader

/-- One OHLC price bar (a row of the pandas frames the strategy code
consumes; the `Volume` column is never read by the functions embedded
here). -/
structure Bar where
  Open : ℚ
  High : ℚ
  Low : ℚ
  Close : ℚ
  deriving Repr, DecidableEq

/-- Instrument metadata, with the default values that
`symbol_info.get(...)` in `risk_management.py` falls back to:
`contract_size=100000`, `lot_step=0.01`, `min_lot=0.01`, `max_lot=100.0`,
`min_stop_distance=0.0001`, `point_value=0.0001`. -/
structure SymbolInfo where
  contract_size : ℚ := 100000
  point_value : ℚ := 1 / 10000
  lot_step : ℚ := 1 / 100
  min_lot : ℚ := 1 / 100
  max_lot : ℚ := 100
  min_stop_distance : ℚ := 1 / 10000
  deriving Repr, DecidableEq

/-- Python 3's built-in `round` to an integer: round half to even
(banker's rounding). -/
def pyround (x : ℚ) : ℤ :=
  let f : ℤ := ⌊x⌋
  let r : ℚ := x - f
  if r < 1 / 2 then f
  else if 1 / 2 < r then f + 1
  else if f % 2 = 0 then f else f + 1

/-- `RiskManagement.calculate_position_size`
(`src/app/strategy/risk_management.py` lines 24–78):
`lots = round((balance * risk) / (|entry - stop| * contract_size) / lot_step) * lot_step`,
clamped by `max(min_lot, min(lots, max_lot))`.  A zero stop distance
returns `0.0` directly; a zero `contract_size` or `lot_step` makes the
Python division raise `ZeroDivisionError`, which the enclosing
`try/except` turns into a `0.0` return — both modelled as the `0`
guards below. -/
def calculate_position_size (account_balance risk_per_trade entry_price stop_loss_price : ℚ)
    (symbol_info : SymbolInfo) : ℚ :=
  let risk_amount := account_balance * risk_per_trade
  let price_diff := |entry_price - stop_loss_price|
  if price_diff = 0 then 0
  else if symbol_info.contract_size = 0 then 0
  else if symbol_info.lot_step = 0 then 0
  else
    let ps := risk_amount / (price_diff * symbol_info.contract_size)
    let ps := (pyround (ps / symbol_info.lot_step) : ℚ) * symbol_info.lot_step
    max symbol_info.min_lot (min ps symbol_info.max_lot)

/-- `RiskManagement.validate_risk_parameters`
(`src/app/strategy/risk_management.py` lines 434–494).  The checks are
evaluated in source order and the function `return`s at the first
failing one; the messages below abbreviate the f-strings of the source
(which interpolate the offending values) to their fixed prefixes. -/
def validate_risk_parameters (account_balance risk_per_trade entry_price stop_loss_price
    position_size : ℚ) (symbol_info : SymbolInfo) : Bool × String :=
  let max_risk_per_trade : ℚ := 2 / 100
  if risk_per_trade > max_risk_per_trade then
    (false, "Risk per trade exceeds maximum allowed")
  else
    let stop_distance := |entry_price - stop_loss_price|
    if stop_distance < symbol_info.min_stop_distance then
      (false, "Stop loss is too close to entry price")
    else
      let risk_amount := stop_distance * position_size * symbol_info.contract_size
      let max_risk_amount := account_balance * max_risk_per_trade
      if risk_amount > max_risk_amount then
        (false, "Risk amount exceeds maximum allowed")
      else if position_size < symbol_info.min_lot then
        (false, "Position size is below minimum allowed")
      else if position_size > symbol_info.max_lot then
        (false, "Position size exceeds maximum allowed")
      else
        (true, "Risk parameters are valid")

/-! ## Indicators: average daily range (`indicators.py` lines 428–494) -/

/-- The `daily_range` column: `(df['High'] - df['Low']) / tick_size / 10`
(`indicators.py` line 463).  Note the extra division by 10 after the
conversion to ticks. -/
def daily_range (tick_size : ℚ) (b : Bar) : ℚ :=
  (b.High - b.Low) / tick_size / 10

/-- pandas `Series.rolling(window=period).mean()`: at index `i` the value
is the mean of the `period` entries ending at `i`, and "no value"
(`NaN`, here `none`) while the window is not yet full.  (pandas rejects
`window=0`; the strategies validate `period ≥ 1`.) -/
def rollingMean (period : ℕ) (xs : List ℚ) : List (Option ℚ) :=
  (List.range xs.length).map fun i =>
    if 1 ≤ period ∧ period ≤ i + 1 then
      some (((xs.drop (i + 1 - period)).take period).sum / period)
    else none

/-- pandas `Series.shift(1)`: index 0 becomes "no value", index `i`
takes the previous index's value. -/
def shift1 (xs : List (Option ℚ)) : List (Option ℚ) :=
  (List.range xs.length).map fun i =>
    match i with
    | 0 => none
    | j + 1 => xs.getD j none

/-- The `ADR` column of `Indicators.average_daily_range`
(`indicators.py` lines 463–469): the rolling mean of `daily_range`
shifted forward one bar, so that bar `i` reads the mean of the window
ending at bar `i - 1`. -/
def adr_col (period : ℕ) (tick_size : ℚ) (bars : List Bar) : List (Option ℚ) :=
  shift1 (rollingMean period (bars.map (daily_range tick_size)))

/-- Modelled from the spec's words, for comparison with `adr_col`: the
arithmetic mean of the per-bar ranges `(high - low)` expressed in
instrument ticks over the trailing `period`-bar window ending at bar
`i - 1` ("**ADR**: Average Daily Range — mean of (high−low) over a
trailing window, expressed in instrument ticks"). -/
def spec_adr_ticks (period : ℕ) (tick_size : ℚ) (bars : List Bar) (i : ℕ) : ℚ :=
  ((((bars.drop (i - period)).take period).map (fun b => (b.High - b.Low) / tick_size)).sum)
    / period

/-! ## Indicators: the swingline state machine (`indicators.py` lines 496–577) -/

/-- The four running trackers and the current direction of
`Indicators.swingline`'s loop (`indicators.py` lines 527–531). -/
structure SwingState where
  highest_high : ℚ
  lowest_low : ℚ
  lowest_high : ℚ
  highest_low : ℚ
  current_swing : ℤ
  deriving Repr, DecidableEq

/-- One iteration of the `swingline` loop (`indicators.py` lines
534–571): tracker updates happen first, then the reversal test uses the
updated trackers and the *previous* bar's low/high. -/
def swinglineStep (prevBar curr : Bar) (st : SwingState) : SwingState :=
  if st.current_swing = 1 then
    let hh := if curr.High > st.highest_high then curr.High else st.highest_high
    let hl := if curr.Low > st.highest_low then curr.Low else st.highest_low
    if curr.High < hl ∧ curr.Close < curr.Open ∧ curr.Close < prevBar.Low then
      { highest_high := hh, lowest_low := curr.Low, lowest_high := curr.High,
        highest_low := hl, current_swing := -1 }
    else
      { st with highest_high := hh, highest_low := hl }
  else if st.current_swing = -1 then
    let ll := if curr.Low < st.lowest_low then curr.Low else st.lowest_low
    let lh := if curr.High < st.lowest_high then curr.High else st.lowest_high
    if curr.Low > lh ∧ curr.Close > curr.Open ∧ curr.Close > prevBar.High then
      { highest_high := curr.High, lowest_low := ll, lowest_high := lh,
        highest_low := curr.Low, current_swing := 1 }
    else
      { st with lowest_low := ll, lowest_high := lh }
  else st

/-- The tail of the swingline series: one output value per remaining
bar, carrying the state forward. -/
def swinglineGo : Bar → SwingState → List Bar → List ℤ
  | _, _, [] => []
  | prevBar, st, curr :: rest =>
    let st' := swinglineStep prevBar curr st
    st'.current_swing :: swinglineGo curr st' rest

/-- `Indicators.swingline`: the first bar is classified `-1` (the
initial state is fixed to a down-swing) and the trackers start from the
first bar's high/low; an empty frame yields an empty series (the
`iloc[0]` `IndexError` is caught and an empty series returned). -/
def swingline : List Bar → List ℤ
  | [] => []
  | b0 :: rest =>
    -1 :: swinglineGo b0
      { highest_high := b0.High, lowest_low := b0.Low, lowest_high := b0.High,
        highest_low := b0.Low, current_swing := -1 } rest

/-! ## `generate_signals` (`mean_reversion_adr.py` lines 115–202,
`mean_reversion_swingline.py` lines 222–328)

Both strategies run the same prologue: check the OHLCV columns, call
`Indicators.average_daily_range`, and then select
`adr_data[['ADR', 'daily_range', 'range_pct']]` for the `pd.concat`.
`average_daily_range` adds only `daily_range`, `ADR` and `SL` to its
input copy (`indicators.py` lines 463–472) — it computes the range
percentage solely as a scalar return — so the selection of the missing
`range_pct` column raises `KeyError` before any signal condition is
evaluated. -/

/-- The columns of the frame returned by `Indicators.average_daily_range`:
the OHLCV input columns (the `Bar` model always carries them) plus the
three columns the function adds. -/
def average_daily_range_frame_cols : List String :=
  ["Open", "High", "Low", "Close", "Volume", "daily_range", "ADR", "SL"]

/-- `MeanReversionADRStrategy.generate_signals` /
`MeanReversionSwinglineStrategy.generate_signals`, modelled up to the
point every execution reaches: the required-column check (satisfied by
construction in the `Bar` model), the `average_daily_range` call, and
the selection `adr_data[['ADR', 'daily_range', 'range_pct']]`
(`mean_reversion_adr.py` line 145, `mean_reversion_swingline.py` line
252), which fails because `range_pct` is not a column of `adr_data`.
Nothing after that line is reachable on any input. -/
def generate_signals (adr_period : ℕ) (tick_size : ℚ) (data : List Bar) :
    Except String (List Bar × List (Option ℚ)) :=
  let adr_data := adr_col adr_period tick_size data
  if ["ADR", "daily_range", "range_pct"].all
      (fun c => average_daily_range_frame_cols.contains c) then
    Except.ok (data, adr_data)
  else
    Except.error "KeyError: range_pct not in index"

/-! ## The backtest simulator (`mean_reversion_swingline.py` lines
364–504; `mean_reversion_adr.py` lines 282–414 is the same loop without
the explicit `None` guards on the stop/target prices) -/

/-- A bar of the signal frame the simulation loop consumes: OHLC plus
the `signal` (±1 or 0), `sl_price` and `tp_price` columns (pandas `NaN`
is `none`). -/
structure SignalBar extends Bar where
  signal : ℤ := 0
  sl_price : Option ℚ := none
  tp_price : Option ℚ := none
  deriving Repr, DecidableEq

/-- The `exit_type` column values: `''`, `'sl'`, `'tp'`, `'close'`.
`'close'` is the end-of-data close (the spec's exit reason
`end-of-data`; `'sl'` is its `stop`, `'tp'` its `target`). -/
inductive ExitType where
  | blank
  | sl
  | tp
  | close
  deriving Repr, DecidableEq

/-- The per-bar output columns written by the loop (each column is
initialised to `0`/`NaN`/`''` before the loop). -/
structure BTRow where
  position : ℤ := 0
  entry_price : Option ℚ := none
  exit_price : Option ℚ := none
  exit_type : ExitType := ExitType.blank
  pnl : ℚ := 0
  deriving Repr, DecidableEq

/-- The loop-carried variables `position`, `entry_price`, `sl_price`,
`tp_price` of `backtest`. -/
structure TradeState where
  position : ℤ := 0
  entry_price : ℚ := 0
  sl_price : Option ℚ := none
  tp_price : Option ℚ := none
  deriving Repr, DecidableEq

/-- `sl_price is not None and Low <= sl_price` for a long position. -/
def longSLHit (curr : SignalBar) (sl : Option ℚ) : Bool :=
  match sl with
  | some p => decide (curr.Low ≤ p)
  | none => false

/-- `tp_price is not None and High >= tp_price` for a long position. -/
def longTPHit (curr : SignalBar) (tp : Option ℚ) : Bool :=
  match tp with
  | some p => decide (curr.High ≥ p)
  | none => false

/-- `sl_price is not None and High >= sl_price` for a short position. -/
def shortSLHit (curr : SignalBar) (sl : Option ℚ) : Bool :=
  match sl with
  | some p => decide (curr.High ≥ p)
  | none => false

/-- `tp_price is not None and Low <= tp_price` for a short position. -/
def shortTPHit (curr : SignalBar) (tp : Option ℚ) : Bool :=
  match tp with
  | some p => decide (curr.Low ≤ p)
  | none => false

/-- The exit phase of one loop iteration
(`mean_reversion_swingline.py` lines 400–446): with an open position,
the stop check runs first and the target check only in its `elif`; on a
hit the bar's row records exit price, exit type and realized P&L and
the position resets. -/
def btExit (curr : SignalBar) (st : TradeState) : BTRow × TradeState :=
  if st.position = 1 then
    if longSLHit curr st.sl_price then
      ({ position := 0, exit_price := st.sl_price, exit_type := ExitType.sl,
         pnl := (st.sl_price.getD 0 - st.entry_price) / st.entry_price * 100 },
       { st with position := 0 })
    else if longTPHit curr st.tp_price then
      ({ position := 0, exit_price := st.tp_price, exit_type := ExitType.tp,
         pnl := (st.tp_price.getD 0 - st.entry_price) / st.entry_price * 100 },
       { st with position := 0 })
    else ({}, st)
  else if st.position = -1 then
    if shortSLHit curr st.sl_price then
      ({ position := 0, exit_price := st.sl_price, exit_type := ExitType.sl,
         pnl := (st.entry_price - st.sl_price.getD 0) / st.entry_price * 100 },
       { st with position := 0 })
    else if shortTPHit curr st.tp_price then
      ({ position := 0, exit_price := st.tp_price, exit_type := ExitType.tp,
         pnl := (st.entry_price - st.tp_price.getD 0) / st.entry_price * 100 },
       { st with position := 0 })
    else ({}, st)
  else ({}, st)

/-- The entry phase of one loop iteration
(`mean_reversion_swingline.py` lines 448–468): flat and the *previous*
bar carries a signal → enter at the *current* bar's open with the
signal bar's stop/target. -/
def btEntry (prev curr : SignalBar) (row : BTRow) (st : TradeState) : BTRow × TradeState :=
  if st.position = 0 ∧ prev.signal ≠ 0 then
    ({ row with position := prev.signal, entry_price := some curr.Open },
     { position := prev.signal, entry_price := curr.Open,
       sl_price := prev.sl_price, tp_price := prev.tp_price })
  else (row, st)

/-- One full iteration of the simulation loop: exits are checked before
a possible same-bar entry. -/
def btStep (prev curr : SignalBar) (st : TradeState) : BTRow × TradeState :=
  let res := btExit curr st
  btEntry prev curr res.1 res.2

/-- The loop `for i in range(1, len(signals))`, producing one output row
per bar from index 1 on. -/
def btLoop : TradeState → SignalBar → List SignalBar → List BTRow × TradeState
  | st, _, [] => ([], st)
  | st, prev, curr :: rest =>
    let res := btStep prev curr st
    let tail := btLoop res.2 curr rest
    (res.1 :: tail.1, tail.2)

/-- All output rows of the loop (row 0 keeps its initialised defaults)
together with the final loop state. -/
def btRows : List SignalBar → List BTRow × TradeState
  | [] => ([], {})
  | b0 :: rest =>
    let res := btLoop {} b0 rest
    ({} :: res.1, res.2)

/-- Replace the last element of a list. -/
def setLast (rows : List BTRow) (f : BTRow → BTRow) : List BTRow :=
  match rows with
  | [] => []
  | [r] => [f r]
  | r :: rest => r :: setLast rest f

/-- The `backtest` simulation (`mean_reversion_swingline.py` lines
364–487): run the loop, then close any still-open position at the final
bar's close with exit type `'close'`. -/
def backtest (bars : List SignalBar) : List BTRow :=
  let res := btRows bars
  if res.2.position ≠ 0 then
    match bars.getLast? with
    | some lastBar =>
      let exit_price := lastBar.Close
      let pnl :=
        if res.2.position = 1 then (exit_price - res.2.entry_price) / res.2.entry_price * 100
        else (res.2.entry_price - exit_price) / res.2.entry_price * 100
      setLast res.1 (fun r =>
        { r with position := 0, exit_price := some exit_price,
                 exit_type := ExitType.close, pnl := pnl })
    | none => res.1
  else res.1

/-- `total_trades = len(signals[signals['pnl'] != 0])`
(`mean_reversion_swingline.py` line 490). -/
def total_trades (rows : List BTRow) : ℕ :=
  (rows.filter (fun r => decide (r.pnl ≠ 0))).length

/-! ## The screener (`src/app/strategy/screener.py`)

Market data for a (symbol, timeframe) pair is a `List Bar` (an empty
list is pandas' empty frame), the data manager is a function, a
condition body is a function returning `Except` (`Except.error` models
a raised exception), and the thread pool dispatch of `screen` is
modelled by its functional result: one independent `_screen_symbol`
evaluation per listed symbol, none of which shares state with another's.
Only the `strategy_name=None` path is modelled, the one the cited claim
is about. -/

/-- `ScreenerCondition` (`screener.py` lines 20–46). -/
structure ScreenerCondition where
  name : String
  condition_func : List Bar → Except String Bool
  timeframe : String := "H1"

/-- `ScreenerCondition.evaluate` (`screener.py` lines 48–62): a raised
exception is caught, logged, and turned into `False`. -/
def ScreenerCondition.evaluate (c : ScreenerCondition) (data : List Bar) : Bool :=
  match c.condition_func data with
  | Except.ok b => b
  | Except.error _ => false

/-- `Screener.get_timeframes` (`screener.py` lines 159–172): the set of
timeframes mentioned by any registered condition. -/
def screener_timeframes (conditions : List (String × List ScreenerCondition)) : List String :=
  (((conditions.map Prod.snd).flatten).map (fun c => c.timeframe)).dedup

/-- `Screener._screen_symbol` (`screener.py` lines 174–238): fetch every
required timeframe (empty frames are skipped with a warning), return
`{}` when nothing was fetched, and otherwise collect per strategy the
names of the conditions whose timeframe was fetched and whose
`evaluate` returns `True`, keeping only strategies with at least one
match. -/
def screen_symbol (conditions : List (String × List ScreenerCondition))
    (dm : String → String → List Bar) (symbol : String) : List (String × List String) :=
  let timeframes := screener_timeframes conditions
  if timeframes.all (fun tf => (dm symbol tf).isEmpty) then []
  else
    conditions.filterMap (fun p =>
      let matched := ((p.2.filter (fun c =>
        (timeframes.contains c.timeframe && !(dm symbol c.timeframe).isEmpty)
          && c.evaluate (dm symbol c.timeframe))).map (fun c => c.name))
      if matched.isEmpty then none else some (p.1, matched))

/-- `total_conditions = sum(len(conditions) for conditions in
symbol_result.values())` (`screener.py` line 295). -/
def matched_total (r : List (String × List String)) : ℕ :=
  ((r.map Prod.snd).map List.length).sum

/-- The per-symbol verdict of `Screener.screen` (`screener.py` lines
288–298): keep the symbol's result when its total number of matched
conditions reaches `min_conditions`. -/
def screen_verdict (conditions : List (String × List ScreenerCondition))
    (dm : String → String → List Bar) (min_conditions : ℕ) (symbol : String) :
    Option (String × List (String × List String)) :=
  let r := screen_symbol conditions dm symbol
  if min_conditions ≤ matched_total r then some (symbol, r) else none

/-- `Screener.screen` (`screener.py` lines 240–304): empty symbol list
or empty condition registry short-circuit to `{}`; otherwise each
symbol is screened independently and filtered by `min_conditions`. -/
def screen (conditions : List (String × List ScreenerCondition))
    (dm : String → String → List Bar) (symbols : List String) (min_conditions : ℕ) :
    List (String × List (String × List String)) :=
  if symbols.isEmpty then []
  else if conditions.isEmpty then []
  else symbols.filterMap (screen_verdict conditions dm min_conditions)

/-! ## Concrete fixtures used by witnesses and counterexamples -/

/-- A five-bar signal series: one long signal at bar 1 (stop 90, target
110), no stop/target breach afterwards, final close 102. -/
def bars5 : List SignalBar :=
  [{ Open := 100, High := 101, Low := 99, Close := 100 },
   { Open := 100, High := 101, Low := 99, Close := 100, signal := 1,
     sl_price := some 90, tp_price := some 110 },
   { Open := 100, High := 101, Low := 99, Close := 100 },
   { Open := 100, High := 101, Low := 99, Close := 100 },
   { Open := 100, High := 103, Low := 99, Close := 102 }]

/-- Two bars of range 20 with `tick_size = 1`. -/
def cexBars : List Bar := [⟨10, 20, 0, 10⟩, ⟨10, 20, 0, 10⟩]

/-- Three bars with ranges 20, 30 and 5 ticks at `tick_size = 1`. -/
def adrBars : List Bar := [⟨0, 20, 0, 0⟩, ⟨0, 30, 0, 0⟩, ⟨0, 5, 0, 5⟩]

/-- A screener condition whose body always raises. -/
def errCond : ScreenerCondition :=
  { name := "always_err", condition_func := fun _ => Except.error "boom", timeframe := "H1" }

/-- A condition registry holding only the raising condition. -/
def errConds : List (String × List ScreenerCondition) := [("MeanReversion", [errCond])]

/-- A data manager returning one bar for every request. -/
def dmConst : String → String → List Bar := fun _ _ => [⟨1, 1, 1, 1⟩]

/-- A prior bar with no signal. -/
def prevW : SignalBar := { Open := 100, High := 101, Low := 99, Close := 100 }

/-- A bar touching both 95 and 105 in the same bar. -/
def currW : SignalBar := { Open := 100, High := 106, Low := 94, Close := 100 }

/-- An open long position with stop 95 and target 105. -/
def stW : TradeState :=
  { position := 1, entry_price := 100, sl_price := some 95, tp_price := some 105 }

/-- A prior bar carrying a long signal with stop 90 and target 110. -/
def prevSigW : SignalBar :=
  { Open := 100, High := 101, Low := 99, Close := 100, signal := 1,
    sl_price := some 90, tp_price := some 110 }

/-! ## Helper lemmas -/

/-- The entry phase only ever writes the `position` and `entry_price`
cells of a row; exit information is preserved. -/
theorem btEntry_exit_fields (prev curr : SignalBar) (row : BTRow) (st : TradeState) :
    (btEntry prev curr row st).1.exit_price = row.exit_price ∧
    (btEntry prev curr row st).1.exit_type = row.exit_type ∧
    (btEntry prev curr row st).1.pnl = row.pnl := by
  unfold btEntry
  split <;> simp

/-- Unfolded form of `calculate_position_size` when no degenerate-input
guard fires. -/
theorem calculate_position_size_eq (ab rpt ep slp : ℚ) (si : SymbolInfo)
    (h : ep ≠ slp) (hcs : si.contract_size ≠ 0) (hls : si.lot_step ≠ 0) :
    calculate_position_size ab rpt ep slp si =
      max si.min_lot
        (min ((pyround (ab * rpt / (|ep - slp| * si.contract_size) / si.lot_step) : ℚ)
          * si.lot_step) si.max_lot) := by
  simp only [calculate_position_size]
  rw [if_neg (abs_ne_zero.mpr (sub_ne_zero.mpr h)), if_neg hcs, if_neg hls]

/-- Evaluation of `pyround` below the half-way point: for
`n ≤ x < n + 1/2` the result is `n`. -/
theorem pyround_eq_floor (x : ℚ) (n : ℤ) (h1 : (n : ℚ) ≤ x) (h2 : x < n + 1 / 2) :
    pyround x = n := by
  have hf : ⌊x⌋ = n := by
    rw [Int.floor_eq_iff]
    exact ⟨h1, by linarith⟩
  simp only [pyround, hf]
  rw [if_pos (by linarith : x - (n : ℚ) < 1 / 2)]

/-- The loop emits exactly one output row per processed bar. -/
theorem btLoop_length (l : List SignalBar) :
    ∀ (st : TradeState) (prev : SignalBar), (btLoop st prev l).1.length = l.length := by
  induction l with
  | nil => intro st prev; rfl
  | cons c rest ih => intro st prev; simp [btLoop, ih]

/-- The simulator's row table has one row per input bar. -/
theorem btRows_length (bars : List SignalBar) : (btRows bars).1.length = bars.length := by
  cases bars with
  | nil => rfl
  | cons b rest => simp [btRows, btLoop_length]

/-- `setLast` maps the last element and `getLast?` sees it. -/
theorem setLast_getLast? (f : BTRow → BTRow) :
    ∀ (rows : List BTRow), rows ≠ [] → (setLast rows f).getLast? = (rows.getLast?).map f
  | [], h => absurd rfl h
  | [r], _ => by simp [setLast]
  | r :: r2 :: rest, _ => by
    have ih := setLast_getLast? f (r2 :: rest) (List.cons_ne_nil _ _)
    have h1 : setLast (r :: r2 :: rest) f = r :: setLast (r2 :: rest) f := rfl
    have h2 : setLast (r2 :: rest) f ≠ [] := by
      cases rest <;> simp [setLast]
    obtain ⟨x, xs, hxs⟩ := List.exists_cons_of_ne_nil h2
    rw [h1, hxs, List.getLast?_cons_cons, ← hxs, ih, List.getLast?_cons_cons]

/-- The source's running-maximum update `if b > a then b else a` is
`max a b`. -/
theorem if_gt_eq_max (a b : ℚ) : (if b > a then b else a) = max a b := by
  rcases le_or_lt b a with h | h
  · rw [if_neg (not_lt.mpr h), max_eq_left h]
  · rw [if_pos h, max_eq_right h.le]

/-- The source's running-minimum update `if b < a then b else a` is
`min a b`. -/
theorem if_lt_eq_min (a b : ℚ) : (if b < a then b else a) = min a b := by
  rcases le_or_lt a b with h | h
  · rw [if_neg (not_lt.mpr h), min_eq_left h]
  · rw [if_pos h, min_eq_right h.le]

/-- `swinglineStep` in the up state, written with `max` for the tracker
updates. -/
theorem swinglineStep_up (prev curr : Bar) (st : SwingState) (h : st.current_swing = 1) :
    swinglineStep prev curr st =
      if curr.High < max st.highest_low curr.Low ∧ curr.Close < curr.Open ∧
          curr.Close < prev.Low then
        { highest_high := max st.highest_high curr.High, lowest_low := curr.Low,
          lowest_high := curr.High, highest_low := max st.highest_low curr.Low,
          current_swing := -1 }
      else
        { st with
          highest_high := max st.highest_high curr.High,
          highest_low := max st.highest_low curr.Low } := by
  simp only [swinglineStep, h, eq_self_iff_true, if_true, if_gt_eq_max]

/-- `swinglineStep` in the down state, written with `min` for the
tracker updates. -/
theorem swinglineStep_down (prev curr : Bar) (st : SwingState) (h : st.current_swing = -1) :
    swinglineStep prev curr st =
      if curr.Low > min st.lowest_high curr.High ∧ curr.Close > curr.Open ∧
          curr.Close > prev.High then
        { highest_high := curr.High, lowest_low := min st.lowest_low curr.Low,
          lowest_high := min st.lowest_high curr.High, highest_low := curr.Low,
          current_swing := 1 }
      else
        { st with
          lowest_low := min st.lowest_low curr.Low,
          lowest_high := min st.lowest_high curr.High } := by
  simp only [swinglineStep, h, eq_self_iff_true, if_true, if_lt_eq_min]
  rw [if_neg (show ¬((-1 : ℤ) = 1) by decide)]

/-- The step keeps the direction in `{1, -1}`. -/
theorem swinglineStep_pm (prev curr : Bar) (st : SwingState)
    (h : st.current_swing = 1 ∨ st.current_swing = -1) :
    (swinglineStep prev curr st).current_swing = 1 ∨
      (swinglineStep prev curr st).current_swing = -1 := by
  rcases h with h | h
  · rw [swinglineStep_up prev curr st h]
    split_ifs
    · right; rfl
    · left; exact h
  · rw [swinglineStep_down prev curr st h]
    split_ifs
    · left; rfl
    · right; exact h

/-- Every value emitted by the swingline tail loop is `1` or `-1`. -/
theorem swinglineGo_mem : ∀ (bars : List Bar) (prev : Bar) (st : SwingState),
    st.current_swing = 1 ∨ st.current_swing = -1 →
    ∀ x ∈ swinglineGo prev st bars, x = 1 ∨ x = -1 := by
  intro bars
  induction bars with
  | nil => intro prev st _ x hx; simp [swinglineGo] at hx
  | cons c rest ih =>
    intro prev st h x hx
    have hstep := swinglineStep_pm prev c st h
    rw [swinglineGo] at hx
    rcases List.mem_cons.mp hx with hx | hx
    · rw [hx]; exact hstep
    · exact ih c _ hstep x hx

/-- Index formula for the `ADR` column: at any index `i ≥ 1` inside the
series, it holds the rolling mean of `daily_range` over the window
ending at `i - 1` (or "no value" while the window is not full). -/
theorem adr_col_getElem? (p : ℕ) (ts : ℚ) (bars : List Bar) (i : ℕ)
    (h1 : 1 ≤ i) (h2 : i < bars.length) :
    (adr_col p ts bars)[i]? =
      some (if 1 ≤ p ∧ p ≤ i then
        some ((((bars.map (daily_range ts)).drop (i - p)).take p).sum / p)
      else none) := by
  obtain ⟨j, rfl⟩ : ∃ j, i = j + 1 := ⟨i - 1, by omega⟩
  have hxlen : (bars.map (daily_range ts)).length = bars.length := List.length_map _ _
  have hrlen : (rollingMean p (bars.map (daily_range ts))).length = bars.length := by
    simp [rollingMean]
  unfold adr_col shift1
  rw [List.getElem?_map, hrlen, List.getElem?_range h2]
  show some ((rollingMean p (bars.map (daily_range ts))).getD j none) = _
  congr 1
  rw [List.getD_eq_getElem?_getD]
  unfold rollingMean
  rw [List.getElem?_map,
    List.getElem?_range (show j < (bars.map (daily_range ts)).length by rw [hxlen]; omega)]
  rfl

/-- If every condition of every strategy evaluates to `False` for a
symbol, `_screen_symbol` returns the empty result. -/
theorem screen_symbol_all_false (conditions : List (String × List ScreenerCondition))
    (dm : String → String → List Bar) (s : String)
    (h : ∀ p ∈ conditions, ∀ c ∈ p.2, c.evaluate (dm s c.timeframe) = false) :
    screen_symbol conditions dm s = [] := by
  simp only [screen_symbol]
  split_ifs with htf
  · rfl
  · refine List.filterMap_eq_nil_iff.mpr ?_
    intro pr hpr
    simp
    intro c hc _ _
    exact h pr hpr c hc

/-- A `some` verdict of `screen` carries the symbol itself as key, its
own screening result as value, and certifies the threshold. -/
theorem screen_verdict_key (conditions : List (String × List ScreenerCondition))
    (dm : String → String → List Bar) (m : ℕ) (x : String)
    (pr : String × List (String × List String))
    (hv : screen_verdict conditions dm m x = some pr) :
    pr = (x, screen_symbol conditions dm x) ∧
      m ≤ matched_total (screen_symbol conditions dm x) := by
  simp only [screen_verdict] at hv
  split_ifs at hv with hc
  exact ⟨(Option.some.inj hv).symm, hc⟩

/-- A symbol absent from the screened list never appears as a key of
the filtered verdict table. -/
theorem lookup_filterMap_none (conditions : List (String × List ScreenerCondition))
    (dm : String → String → List Bar) (m : ℕ) (s' : String) :
    ∀ xs : List String, s' ∉ xs →
      (xs.filterMap (screen_verdict conditions dm m)).lookup s' = none := by
  intro xs
  induction xs with
  | nil => intro _; rfl
  | cons y ys ih =>
    intro hnot
    have hy : y ≠ s' := fun he => hnot (he ▸ List.mem_cons_self y ys)
    have hys : s' ∉ ys := fun hm => hnot (List.mem_cons_of_mem y hm)
    cases hv : screen_verdict conditions dm m y with
    | none => rw [List.filterMap_cons_none hv]; exact ih hys
    | some pr =>
      obtain ⟨hpr, -⟩ := screen_verdict_key conditions dm m y pr hv
      rw [List.filterMap_cons_some hv, hpr]
      simp only [List.lookup, beq_eq_false_iff_ne.mpr (Ne.symm hy)]
      exact ih hys

/-- The verdict table looks up each listed symbol to exactly its own
independent screening outcome. -/
theorem lookup_screen_filterMap (conditions : List (String × List ScreenerCondition))
    (dm : String → String → List Bar) (m : ℕ) (s' : String) :
    ∀ symbols : List String, s' ∈ symbols →
      (symbols.filterMap (screen_verdict conditions dm m)).lookup s' =
        if m ≤ matched_total (screen_symbol conditions dm s') then
          some (screen_symbol conditions dm s') else none := by
  intro symbols
  induction symbols with
  | nil => intro h; cases h
  | cons x xs ih =>
    intro hmem
    by_cases hx : x = s'
    · subst hx
      cases hv : screen_verdict conditions dm m x with
      | none =>
        have hcond : ¬ m ≤ matched_total (screen_symbol conditions dm x) := by
          intro hc
          simp only [screen_verdict] at hv
          rw [if_pos hc] at hv
          exact Option.noConfusion hv
        rw [List.filterMap_cons_none hv, if_neg hcond]
        by_cases hxs : x ∈ xs
        · rw [ih hxs, if_neg hcond]
        · exact lookup_filterMap_none conditions dm m x xs hxs
      | some pr =>
        obtain ⟨hpr, hc⟩ := screen_verdict_key conditions dm m x pr hv
        rw [List.filterMap_cons_some hv, hpr, if_pos hc]
        simp [List.lookup]
    · have hmem2 : s' ∈ xs := by
        rcases List.mem_cons.mp hmem with h | h
        · exact absurd h.symm hx
        · exact h
      cases hv : screen_verdict conditions dm m x with
      | none => rw [List.filterMap_cons_none hv]; exact ih hmem2
      | some pr =>
        obtain ⟨hpr, -⟩ := screen_verdict_key conditions dm m x pr hv
        rw [List.filterMap_cons_some hv, hpr]
        simp only [List.lookup, beq_eq_false_iff_ne.mpr (fun he => hx he.symm)]
        exact ih hmem2

/-! ## Claim theorems -/

/-- Claim C5: `calculate_position_size` returns
`(balance * risk) / (|entry - stop| * contract_size)` rounded to the lot
step and clamped into `[min_lot, max_lot]`; the worked example
entry=1.1000, stop=1.0950, balance=10000, risk=0.01,
contract_size=100000 yields 0.20 lots; and a zero stop distance fails
closed to zero. -/
theorem calculate_position_size_formula :
    (∀ (ab rpt ep slp : ℚ) (si : SymbolInfo), ep ≠ slp →
      si.contract_size ≠ 0 → si.lot_step ≠ 0 →
      calculate_position_size ab rpt ep slp si =
        max si.min_lot
          (min ((pyround (ab * rpt / (|ep - slp| * si.contract_size) / si.lot_step) : ℚ)
            * si.lot_step) si.max_lot))
    ∧ calculate_position_size 10000 (1 / 100) (11 / 10) (219 / 200) {} = 1 / 5
    ∧ (∀ (ab rpt ep : ℚ) (si : SymbolInfo), calculate_position_size ab rpt ep ep si = 0) := by
  refine ⟨calculate_position_size_eq, ?_, ?_⟩
  · have habs : |(11 / 10 : ℚ) - 219 / 200| = 1 / 200 := by
      rw [abs_of_pos] <;> norm_num
    rw [calculate_position_size_eq _ _ _ _ _ (by norm_num) (by norm_num) (by norm_num)]
    simp only [habs, SymbolInfo.contract_size, SymbolInfo.lot_step, SymbolInfo.min_lot,
      SymbolInfo.max_lot]
    rw [show pyround (10000 * (1 / 100) / (1 / 200 * 100000) / (1 / 100)) = 20 from
      pyround_eq_floor _ 20 (by norm_num) (by norm_num)]
    norm_num
  · intro ab rpt ep si
    simp [calculate_position_size]

/-- Witness for C5: the formula applied at the worked example. -/
theorem calculate_position_size_formula_witness :
    calculate_position_size 10000 (1 / 100) (11 / 10) (219 / 200) {} =
      max ({} : SymbolInfo).min_lot
        (min ((pyround (10000 * (1 / 100) / (|(11 / 10 : ℚ) - 219 / 200|
            * ({} : SymbolInfo).contract_size) / ({} : SymbolInfo).lot_step) : ℚ)
          * ({} : SymbolInfo).lot_step) ({} : SymbolInfo).max_lot) :=
  calculate_position_size_formula.1 10000 (1 / 100) (11 / 10) (219 / 200) {}
    (by norm_num) (by norm_num) (by norm_num)

/-- Claim C10: with a nonzero stop distance and `min_lot ≤ max_lot` the
returned size lies in `[min_lot, max_lot]`; it is floored at `min_lot`
and (for a positive `min_lot`) never zero, even when the risk-derived
size rounds to zero, so the realized monetary risk can exceed
`balance * risk` — as in the concrete run with balance 100 and risk
0.001, where the rounded size is 0 but 0.01 lots are returned and the
monetary risk is 5. -/
theorem position_size_clamped_min_lot :
    (∀ (ab rpt ep slp : ℚ) (si : SymbolInfo), ep ≠ slp →
      si.contract_size ≠ 0 → si.lot_step ≠ 0 → si.min_lot ≤ si.max_lot →
      si.min_lot ≤ calculate_position_size ab rpt ep slp si ∧
        calculate_position_size ab rpt ep slp si ≤ si.max_lot)
    ∧ (∀ (ab rpt ep slp : ℚ) (si : SymbolInfo), ep ≠ slp →
      si.contract_size ≠ 0 → si.lot_step ≠ 0 → si.min_lot ≤ si.max_lot → 0 < si.min_lot →
      calculate_position_size ab rpt ep slp si ≠ 0)
    ∧ calculate_position_size 100 (1 / 1000) (11 / 10) (219 / 200) {} = 1 / 100
    ∧ (pyround (100 * (1 / 1000) / (|(11 / 10 : ℚ) - 219 / 200| * 100000) / (1 / 100)) : ℚ)
        * (1 / 100) = 0
    ∧ (100 : ℚ) * (1 / 1000) < |(11 / 10 : ℚ) - 219 / 200| * (1 / 100) * 100000 := by
  have base : ∀ (ab rpt ep slp : ℚ) (si : SymbolInfo), ep ≠ slp →
      si.contract_size ≠ 0 → si.lot_step ≠ 0 → si.min_lot ≤ si.max_lot →
      si.min_lot ≤ calculate_position_size ab rpt ep slp si ∧
        calculate_position_size ab rpt ep slp si ≤ si.max_lot := by
    intro ab rpt ep slp si h hcs hls hml
    rw [calculate_position_size_eq ab rpt ep slp si h hcs hls]
    exact ⟨le_max_left _ _, max_le hml (min_le_right _ _)⟩
  have habs : |(11 / 10 : ℚ) - 219 / 200| = 1 / 200 := by
    rw [abs_of_pos] <;> norm_num
  refine ⟨base, ?_, ?_, ?_, ?_⟩
  · intro ab rpt ep slp si h hcs hls hml hpos
    exact ne_of_gt (lt_of_lt_of_le hpos (base ab rpt ep slp si h hcs hls hml).1)
  · rw [calculate_position_size_eq _ _ _ _ _ (by norm_num) (by norm_num) (by norm_num)]
    simp only [habs, SymbolInfo.contract_size, SymbolInfo.lot_step, SymbolInfo.min_lot,
      SymbolInfo.max_lot]
    rw [show pyround (100 * (1 / 1000) / (1 / 200 * 100000) / (1 / 100)) = 0 from
      pyround_eq_floor _ 0 (by norm_num) (by norm_num)]
    norm_num
  · simp only [habs]
    rw [show pyround (100 * (1 / 1000) / (1 / 200 * 100000) / (1 / 100)) = 0 from
      pyround_eq_floor _ 0 (by norm_num) (by norm_num)]
    norm_num
  · rw [habs]
    norm_num

/-- Witness for C10: the clamping bounds at the worked low-risk input. -/
theorem position_size_clamped_min_lot_witness :
    ({} : SymbolInfo).min_lot ≤ calculate_position_size 100 (1 / 1000) (11 / 10) (219 / 200) {} ∧
      calculate_position_size 100 (1 / 1000) (11 / 10) (219 / 200) {} ≤ ({} : SymbolInfo).max_lot :=
  position_size_clamped_min_lot.1 100 (1 / 1000) (11 / 10) (219 / 200) {}
    (by norm_num) (by norm_num) (by norm_num) (by norm_num)

/-- Counterexample to claim C3: at balance 10000, risk 5%, entry 1.1,
stop 1.095, size 0.001 lots both the risk-ceiling check and the
minimum-lot check fail, yet `validate_risk_parameters` reports only the
first failure — the failures are not collected together. -/
theorem validate_risk_parameters_shortcircuit_cex :
    validate_risk_parameters 10000 (5 / 100) (11 / 10) (219 / 200) (1 / 1000) {} =
      (false, "Risk per trade exceeds maximum allowed")
    ∧ (1 / 1000 : ℚ) < ({} : SymbolInfo).min_lot := by
  constructor
  · norm_num [validate_risk_parameters]
  · norm_num [SymbolInfo.min_lot]

/-- Claim C3 amended: `validate_risk_parameters` runs its checks in
source order — risk fraction ceiling (2%), minimum stop distance,
monetary risk ceiling, then lot bounds — and returns `False` with the
*first* failing check's reason (later checks are not executed); only
when every check passes does it return `True`. -/
theorem validate_risk_parameters_first_failure
    (ab rpt ep slp ps : ℚ) (si : SymbolInfo) :
    (rpt > 2 / 100 →
      validate_risk_parameters ab rpt ep slp ps si =
        (false, "Risk per trade exceeds maximum allowed"))
    ∧ (¬ rpt > 2 / 100 → |ep - slp| < si.min_stop_distance →
      validate_risk_parameters ab rpt ep slp ps si =
        (false, "Stop loss is too close to entry price"))
    ∧ (¬ rpt > 2 / 100 → ¬ |ep - slp| < si.min_stop_distance →
      |ep - slp| * ps * si.contract_size > ab * (2 / 100) →
      validate_risk_parameters ab rpt ep slp ps si =
        (false, "Risk amount exceeds maximum allowed"))
    ∧ (¬ rpt > 2 / 100 → ¬ |ep - slp| < si.min_stop_distance →
      ¬ |ep - slp| * ps * si.contract_size > ab * (2 / 100) → ps < si.min_lot →
      validate_risk_parameters ab rpt ep slp ps si =
        (false, "Position size is below minimum allowed"))
    ∧ (¬ rpt > 2 / 100 → ¬ |ep - slp| < si.min_stop_distance →
      ¬ |ep - slp| * ps * si.contract_size > ab * (2 / 100) → ¬ ps < si.min_lot →
      ps > si.max_lot →
      validate_risk_parameters ab rpt ep slp ps si =
        (false, "Position size exceeds maximum allowed"))
    ∧ (¬ rpt > 2 / 100 → ¬ |ep - slp| < si.min_stop_distance →
      ¬ |ep - slp| * ps * si.contract_size > ab * (2 / 100) → ¬ ps < si.min_lot →
      ¬ ps > si.max_lot →
      validate_risk_parameters ab rpt ep slp ps si = (true, "Risk parameters are valid")) := by
  simp only [validate_risk_parameters]
  refine ⟨fun h1 => ?_, fun h1 h2 => ?_, fun h1 h2 h3 => ?_, fun h1 h2 h3 h4 => ?_,
    fun h1 h2 h3 h4 h5 => ?_, fun h1 h2 h3 h4 h5 => ?_⟩
  · rw [if_pos h1]
  · rw [if_neg h1, if_pos h2]
  · rw [if_neg h1, if_neg h2, if_pos h3]
  · rw [if_neg h1, if_neg h2, if_neg h3, if_pos h4]
  · rw [if_neg h1, if_neg h2, if_neg h3, if_neg h4, if_pos h5]
  · rw [if_neg h1, if_neg h2, if_neg h3, if_neg h4, if_neg h5]

/-- Witness for C3's amended theorem: an input passing all four checks
validates. -/
theorem validate_risk_parameters_first_failure_witness :
    validate_risk_parameters 10000 (1 / 100) (11 / 10) (219 / 200) (1 / 5) {} =
      (true, "Risk parameters are valid") :=
  (validate_risk_parameters_first_failure 10000 (1 / 100) (11 / 10) (219 / 200) (1 / 5)
    {}).2.2.2.2.2 (by norm_num)
    (by rw [abs_of_pos (by norm_num : (0 : ℚ) < 11 / 10 - 219 / 200)]
        norm_num [SymbolInfo.min_stop_distance])
    (by rw [abs_of_pos (by norm_num : (0 : ℚ) < 11 / 10 - 219 / 200)]
        norm_num [SymbolInfo.contract_size])
    (by norm_num [SymbolInfo.min_lot]) (by norm_num [SymbolInfo.max_lot])

/-- Claim C1: in the backtest loop, when an open long position's bar
touches both levels (`low ≤ stop` and `high ≥ target`) the position is
closed at the stop price with exit reason stop (`'sl'`) — the stop
check runs before the target check — and symmetrically an open short
position whose bar touches both (`high ≥ stop` and `low ≤ target`)
closes at the stop with reason stop. -/
theorem backtest_stop_before_target (prev curr : SignalBar) (st : TradeState) (sl tp : ℚ)
    (hsl : st.sl_price = some sl) (_htp : st.tp_price = some tp) :
    (st.position = 1 → curr.Low ≤ sl → tp ≤ curr.High →
      (btStep prev curr st).1.exit_price = some sl ∧
      (btStep prev curr st).1.exit_type = ExitType.sl ∧
      (btExit curr st).2.position = 0)
    ∧ (st.position = -1 → sl ≤ curr.High → curr.Low ≤ tp →
      (btStep prev curr st).1.exit_price = some sl ∧
      (btStep prev curr st).1.exit_type = ExitType.sl ∧
      (btExit curr st).2.position = 0) := by
  have hstep : (btStep prev curr st).1 =
      (btEntry prev curr (btExit curr st).1 (btExit curr st).2).1 := rfl
  have hfields := btEntry_exit_fields prev curr (btExit curr st).1 (btExit curr st).2
  constructor
  · intro hpos hlow hhigh
    have hexit1 : (btExit curr st).1.exit_price = some sl ∧
        (btExit curr st).1.exit_type = ExitType.sl ∧ (btExit curr st).2.position = 0 := by
      simp [btExit, hpos, longSLHit, hsl, hlow]
    exact ⟨by rw [hstep, hfields.1]; exact hexit1.1,
      by rw [hstep, hfields.2.1]; exact hexit1.2.1, hexit1.2.2⟩
  · intro hpos hhigh hlow
    have hexit1 : (btExit curr st).1.exit_price = some sl ∧
        (btExit curr st).1.exit_type = ExitType.sl ∧ (btExit curr st).2.position = 0 := by
      simp [btExit, hpos, shortSLHit, hsl, hhigh]
    exact ⟨by rw [hstep, hfields.1]; exact hexit1.1,
      by rw [hstep, hfields.2.1]; exact hexit1.2.1, hexit1.2.2⟩

/-- Witness for C1: a long position with stop 95 / target 105 on a bar
with low 94 and high 106 exits at 95 with reason stop. -/
theorem backtest_stop_before_target_witness :
    (btStep prevW currW stW).1.exit_price = some 95 ∧
      (btStep prevW currW stW).1.exit_type = ExitType.sl ∧
      (btExit currW stW).2.position = 0 :=
  (backtest_stop_before_target prevW currW stW 95 105 rfl rfl).1 rfl
    (by norm_num [currW]) (by norm_num [currW])

/-- Claim C6: in the backtest loop, when no position is open and the
previous bar carries a nonzero signal, a position is opened at the
current bar's open price with the signal bar's recorded stop-loss and
take-profit — entry is deferred exactly one bar from the signal bar. -/
theorem backtest_entry_next_open (prev curr : SignalBar) (st : TradeState)
    (h0 : st.position = 0) (hsig : prev.signal ≠ 0) :
    (btStep prev curr st).1.position = prev.signal ∧
    (btStep prev curr st).1.entry_price = some curr.Open ∧
    (btStep prev curr st).2.position = prev.signal ∧
    (btStep prev curr st).2.entry_price = curr.Open ∧
    (btStep prev curr st).2.sl_price = prev.sl_price ∧
    (btStep prev curr st).2.tp_price = prev.tp_price := by
  have hexit : btExit curr st = ({}, st) := by
    simp [btExit, h0]
  simp [btStep, hexit, btEntry, h0, hsig]

/-- Witness for C6: a flat state and a prior signal bar open a long at
the current bar's open 100 with the signal bar's stop 90 / target 110. -/
theorem backtest_entry_next_open_witness :
    (btStep prevSigW currW {}).1.position = prevSigW.signal ∧
    (btStep prevSigW currW {}).1.entry_price = some currW.Open ∧
    (btStep prevSigW currW {}).2.position = prevSigW.signal ∧
    (btStep prevSigW currW {}).2.entry_price = currW.Open ∧
    (btStep prevSigW currW {}).2.sl_price = prevSigW.sl_price ∧
    (btStep prevSigW currW {}).2.tp_price = prevSigW.tp_price :=
  backtest_entry_next_open prevSigW currW {} rfl (by norm_num [prevSigW])

/-- Claim C7: any position still open after the last bar is processed
is closed at the final bar's close with exit reason end-of-data
(`'close'`); on the five-bar series with a single signal at bar 1 and
no stop/target breach, the run reports exactly one closed trade, with
that exit reason at the last close 102. -/
theorem backtest_end_of_data_close :
    (∀ (bars : List SignalBar) (b : SignalBar), bars.getLast? = some b →
      (btRows bars).2.position ≠ 0 →
      (backtest bars).getLast?.map (fun r => (r.exit_price, r.exit_type, r.position)) =
        some (some b.Close, ExitType.close, 0))
    ∧ total_trades (backtest bars5) = 1
    ∧ (backtest bars5).getLast? =
        some { position := 0, entry_price := none, exit_price := some 102,
               exit_type := ExitType.close, pnl := 2 } := by
  refine ⟨?_, ?_, ?_⟩
  · intro bars b hb h
    have hne : bars ≠ [] := by
      intro hnil
      rw [hnil] at hb
      exact Option.noConfusion hb
    have hlen := btRows_length bars
    have hrowsne : (btRows bars).1 ≠ [] := by
      intro hnil
      rw [hnil] at hlen
      exact hne (List.length_eq_zero.mp hlen.symm)
    have hbt : backtest bars = setLast (btRows bars).1 (fun r =>
        { r with
          position := 0,
          exit_price := some b.Close,
          exit_type := ExitType.close,
          pnl := (if (btRows bars).2.position = 1 then
              (b.Close - (btRows bars).2.entry_price) / (btRows bars).2.entry_price * 100
            else
              ((btRows bars).2.entry_price - b.Close) / (btRows bars).2.entry_price * 100) }) := by
      simp only [backtest]
      rw [if_pos h, hb]
    rw [hbt, setLast_getLast? _ _ hrowsne]
    cases hr0 : (btRows bars).1.getLast? with
    | none => exact absurd (List.getLast?_eq_none_iff.mp hr0) hrowsne
    | some r0 => simp
  · norm_num [total_trades, backtest, btRows, btLoop, btStep, btExit, btEntry,
      longSLHit, longTPHit, shortSLHit, shortTPHit, bars5, setLast, List.filter]
  · norm_num [backtest, btRows, btLoop, btStep, btExit, btEntry,
      longSLHit, longTPHit, shortSLHit, shortTPHit, bars5, setLast]

/-- Witness for C7: the end-of-data rule applied to the five-bar
series. -/
theorem backtest_end_of_data_close_witness :
    (backtest bars5).getLast?.map (fun r => (r.exit_price, r.exit_type, r.position)) =
      some (some 102, ExitType.close, 0) :=
  backtest_end_of_data_close.1 bars5
    { Open := 100, High := 103, Low := 99, Close := 102 } (by norm_num [bars5])
    (by norm_num [btRows, btLoop, btStep, btExit, btEntry, longSLHit, longTPHit,
      shortSLHit, shortTPHit, bars5])

/-- Claim C8: the swingline starts in the Down state (`-1`) at the
first bar; in the Up state it transitions to Down at a bar exactly when
the bar's high is below the running higher-low tracker, the bar closes
below its open, and the close is below the previous bar's low, and the
transition resets the down-swing trackers from that bar; the symmetric
rule governs Down-to-Up; and every bar is classified `1` or `-1`. -/
theorem swingline_state_machine :
    (∀ (b0 : Bar) (rest : List Bar), (swingline (b0 :: rest)).head? = some (-1))
    ∧ (∀ (prev curr : Bar) (st : SwingState), st.current_swing = 1 →
        ((swinglineStep prev curr st).current_swing = -1 ↔
          (curr.High < max st.highest_low curr.Low ∧ curr.Close < curr.Open ∧
            curr.Close < prev.Low)))
    ∧ (∀ (prev curr : Bar) (st : SwingState), st.current_swing = 1 →
        curr.High < max st.highest_low curr.Low → curr.Close < curr.Open →
        curr.Close < prev.Low →
        (swinglineStep prev curr st).lowest_low = curr.Low ∧
          (swinglineStep prev curr st).lowest_high = curr.High)
    ∧ (∀ (prev curr : Bar) (st : SwingState), st.current_swing = -1 →
        ((swinglineStep prev curr st).current_swing = 1 ↔
          (curr.Low > min st.lowest_high curr.High ∧ curr.Close > curr.Open ∧
            curr.Close > prev.High)))
    ∧ (∀ (prev curr : Bar) (st : SwingState), st.current_swing = -1 →
        curr.Low > min st.lowest_high curr.High → curr.Close > curr.Open →
        curr.Close > prev.High →
        (swinglineStep prev curr st).highest_high = curr.High ∧
          (swinglineStep prev curr st).highest_low = curr.Low)
    ∧ (∀ (bars : List Bar), ∀ x ∈ swingline bars, x = 1 ∨ x = -1) := by
  refine ⟨fun b0 rest => rfl, ?_, ?_, ?_, ?_, ?_⟩
  · intro prev curr st h
    rw [swinglineStep_up prev curr st h]
    split_ifs with hc
    · exact iff_of_true rfl hc
    · refine iff_of_false ?_ hc
      intro habs
      have : st.current_swing = -1 := habs
      omega
  · intro prev curr st h hc1 hc2 hc3
    rw [swinglineStep_up prev curr st h, if_pos ⟨hc1, hc2, hc3⟩]
    exact ⟨rfl, rfl⟩
  · intro prev curr st h
    rw [swinglineStep_down prev curr st h]
    split_ifs with hc
    · exact iff_of_true rfl hc
    · refine iff_of_false ?_ hc
      intro habs
      have : st.current_swing = 1 := habs
      omega
  · intro prev curr st h hc1 hc2 hc3
    rw [swinglineStep_down prev curr st h, if_pos ⟨hc1, hc2, hc3⟩]
    exact ⟨rfl, rfl⟩
  · intro bars x hx
    cases bars with
    | nil => simp [swingline] at hx
    | cons b0 rest =>
      rw [swingline] at hx
      rcases List.mem_cons.mp hx with hx | hx
      · right; exact hx
      · exact swinglineGo_mem rest b0 _ (Or.inr rfl) x hx

/-- Witness for C8: a concrete Up-to-Down reversal (tracker 100, bar
with high 99 closing 92 below its open 98 and below the previous low
104). -/
theorem swingline_state_machine_witness :
    (swinglineStep ⟨105, 106, 104, 105⟩ ⟨98, 99, 90, 92⟩
        { highest_high := 110, lowest_low := 0, lowest_high := 0, highest_low := 100,
          current_swing := 1 }).current_swing = -1 :=
  (swingline_state_machine.2.1 ⟨105, 106, 104, 105⟩ ⟨98, 99, 90, 92⟩
      { highest_high := 110, lowest_low := 0, lowest_high := 0, highest_low := 100,
        current_swing := 1 } rfl).mpr
    ⟨by norm_num [max_def], by norm_num, by norm_num⟩

/-- Counterexample to claim C4: with `period = 1`, `tick_size = 1` and
two bars of range 20, the ADR aligned to bar 1 is 2 — the window mean of
`(high - low) / tick_size / 10` — while the mean of the ranges
expressed in instrument ticks over the same window is 20; the claimed
equality fails by the extra factor 10. -/
theorem adr_ticks_factor_cex :
    (adr_col 1 1 cexBars)[1]? = some (some 2) ∧
      spec_adr_ticks 1 1 cexBars 1 = 20 ∧ (2 : ℚ) ≠ 20 := by
  refine ⟨?_, ?_, by norm_num⟩
  · rw [adr_col_getElem? 1 1 cexBars 1 le_rfl (by norm_num [cexBars])]
    norm_num [cexBars, daily_range]
  · norm_num [spec_adr_ticks, cexBars]

/-- Claim C4 amended: for `1 ≤ period ≤ i < length`, the ADR value
aligned to bar `i` equals the mean over the trailing window ending at
bar `i - 1` of the per-bar ranges in instrument ticks *divided by 10*
(the source computes `(high - low) / tick_size / 10`); in particular it
depends only on bars strictly before `i` and never includes bar `i`'s
own range: any series agreeing on bars `< i` yields the same value at
`i`. -/
theorem adr_shifted_window_mean (p : ℕ) (ts : ℚ) (bars : List Bar) (i : ℕ)
    (hp : 1 ≤ p) (hpi : p ≤ i) (hi : i < bars.length) :
    (adr_col p ts bars)[i]? = some (some (spec_adr_ticks p ts bars i / 10))
    ∧ (∀ bars₂ : List Bar, i < bars₂.length →
        (∀ j, j < i → bars[j]? = bars₂[j]?) →
        (adr_col p ts bars)[i]? = (adr_col p ts bars₂)[i]?) := by
  have hwin : ∀ (l : List Bar), i < l.length →
      ((l.map (daily_range ts)).drop (i - p)).take p = ((l.drop (i - p)).take p).map
        (daily_range ts) := by
    intro l _
    rw [List.map_take, List.map_drop]
  constructor
  · rw [adr_col_getElem? p ts bars i (by omega) hi, if_pos ⟨hp, hpi⟩, hwin bars hi]
    have hsum : (((bars.drop (i - p)).take p).map (daily_range ts)).sum =
        (((bars.drop (i - p)).take p).map (fun b => (b.High - b.Low) / ts)).sum / 10 := by
      have hfun : (fun b => (b.High - b.Low) / ts * (10 : ℚ)⁻¹) = daily_range ts := by
        funext b
        simp only [daily_range]
        ring
      rw [div_eq_mul_inv, ← List.sum_map_mul_right, hfun]
    rw [hsum, spec_adr_ticks, div_right_comm]
  · intro bars₂ hi2 hagree
    rw [adr_col_getElem? p ts bars i (by omega) hi,
      adr_col_getElem? p ts bars₂ i (by omega) hi2, hwin bars hi, hwin bars₂ hi2]
    have hwineq : (bars.drop (i - p)).take p = (bars₂.drop (i - p)).take p := by
      apply List.ext_getElem?
      intro n
      rcases lt_or_le n p with hn | hn
      · rw [List.getElem?_take_of_lt hn, List.getElem?_take_of_lt hn,
          List.getElem?_drop, List.getElem?_drop]
        exact hagree (i - p + n) (by omega)
      · rw [List.getElem?_eq_none, List.getElem?_eq_none]
        · exact le_trans (le_trans (List.length_take_le _ _) hn) le_rfl
        · exact le_trans (List.length_take_le _ _) hn
    rw [hwineq]

/-- Witness for C4's amended theorem: with `period = 2`, `tick_size = 1`
and windows of ranges 20 and 30 ticks, bar 2 reads `25 / 10`. -/
theorem adr_shifted_window_mean_witness :
    (adr_col 2 1 adrBars)[2]? = some (some (spec_adr_ticks 2 1 adrBars 2 / 10)) ∧
      spec_adr_ticks 2 1 adrBars 2 = 25 :=
  ⟨(adr_shifted_window_mean 2 1 adrBars 2 (by norm_num) (by norm_num)
      (by norm_num [adrBars])).1,
    by norm_num [spec_adr_ticks, adrBars]⟩

/-- Claim C2 (code bug in the source): `generate_signals` can never
mark a signal — on *every* input it fails with `KeyError` at the
selection `adr_data[['ADR', 'daily_range', 'range_pct']]`, because
`average_daily_range` never adds a `range_pct` column (it returns the
range percentage only as a scalar), so none of the claimed
threshold/close/oscillator conditions is ever evaluated. -/
theorem generate_signals_always_keyerror :
    ∀ (adr_period : ℕ) (tick_size : ℚ) (data : List Bar),
      generate_signals adr_period tick_size data =
        Except.error "KeyError: range_pct not in index" :=
  fun _ _ _ => rfl

/-- Claim C9: a condition body that raises is caught and treated as not
met; a symbol all of whose conditions raise is absent from the matched
results (for any threshold of at least one condition); and each
symbol's outcome in a screen is exactly its own independent screening
verdict, so one symbol's failure cannot affect any other symbol. -/
theorem screener_error_isolated :
    (∀ (c : ScreenerCondition) (data : List Bar) (e : String),
        c.condition_func data = Except.error e → c.evaluate data = false)
    ∧ (∀ (conditions : List (String × List ScreenerCondition))
        (dm : String → String → List Bar) (symbols : List String) (s : String) (m : ℕ),
        1 ≤ m →
        (∀ p ∈ conditions, ∀ c ∈ p.2, ∃ e,
          c.condition_func (dm s c.timeframe) = Except.error e) →
        ∀ r ∈ screen conditions dm symbols m, r.1 ≠ s)
    ∧ (∀ (conditions : List (String × List ScreenerCondition))
        (dm : String → String → List Bar) (symbols : List String) (m : ℕ) (s' : String),
        conditions ≠ [] → s' ∈ symbols →
        (screen conditions dm symbols m).lookup s' =
          if m ≤ matched_total (screen_symbol conditions dm s') then
            some (screen_symbol conditions dm s') else none) := by
  refine ⟨?_, ?_, ?_⟩
  · intro c data e h
    simp [ScreenerCondition.evaluate, h]
  · intro conditions dm symbols s m hm hall r hr
    have hfalse : ∀ p ∈ conditions, ∀ c ∈ p.2, c.evaluate (dm s c.timeframe) = false := by
      intro p hp c hc
      obtain ⟨e, he⟩ := hall p hp c hc
      simp [ScreenerCondition.evaluate, he]
    have hempty := screen_symbol_all_false conditions dm s hfalse
    intro hrs
    unfold screen at hr
    split_ifs at hr
    · exact (List.not_mem_nil r) hr
    · exact (List.not_mem_nil r) hr
    · obtain ⟨a, ha, hv⟩ := List.mem_filterMap.mp hr
      obtain ⟨hpr, hc⟩ := screen_verdict_key conditions dm m a r hv
      have has : a = s := by rw [hpr] at hrs; exact hrs
      rw [has, hempty] at hc
      simp [matched_total] at hc
      omega
  · intro conditions dm symbols m s' hcond hmem
    unfold screen
    rw [if_neg (by simp [List.isEmpty_iff, List.ne_nil_of_mem hmem]),
      if_neg (by simp [List.isEmpty_iff, hcond])]
    exact lookup_screen_filterMap conditions dm m s' symbols hmem

/-- Witness for C9: with a single always-raising condition registered,
the symbol is absent from the matched results. -/
theorem screener_error_isolated_witness :
    ("EURUSD", ([] : List (String × List String))) ∉
      screen errConds dmConst ["EURUSD", "GBPUSD"] 1 :=
  fun hmem =>
    (screener_error_isolated.2.1 errConds dmConst ["EURUSD", "GBPUSD"] "EURUSD" 1 le_rfl
      (by
        intro p hp c hc
        simp only [errConds, List.mem_singleton] at hp
        subst hp
        simp only [List.mem_singleton] at hc
        subst hc
        exact ⟨"boom", rfl⟩)
      _ hmem) rfl

end HaruTrader
